import Mathlib

/-!
Shallow embedding of the core of the CS50 FRED dashboard repository:
the FRED API client (`src/data/fred_data.py`, class `FRED_API`) and the
transformation pipeline (`src/utils/fred_data_cleaner.py`, class
`Fred_Data_Cleaner`).

Modelling conventions:
* Python dicts of query parameters become association lists of strings with
  Python's update semantics (overwrite in place, append new keys at the end).
* pandas DataFrames become lists of named columns, each column a list of
  optional rationals (`none` models NaN); float arithmetic is idealised to
  exact rational arithmetic.
* Log output becomes an explicit list of `(level, message)` entries.
* The aiohttp request/response round trip is abstracted into a
  `ReqOutcome` value describing which of the source's exception paths fires;
  Python exceptions become an explicit `PyExc` value that the embedded
  `try`/`except` structure matches on exhaustively.
* In-place mutation of caller-owned objects (a DataFrame handed to the
  cleaner, a params dict handed to `get_series_obs`) is modelled with an
  explicit heap: a list of cells indexed by natural-number references.
-/

namespace FredCore

/-! ## Python dict model (query parameter mappings) -/

/-- Association list standing for a Python string-keyed mapping (a query
parameter `dict[str, str]`, or a DataFrame's named columns).  `dictSet` is
`d[k] = v`: overwrite the (unique) existing binding in place, otherwise
append at the end, as Python insertion-ordered dicts (and pandas column
assignment) do. -/
def dictSet {α : Type} : List (String × α) → String → α → List (String × α)
  | [], k, v => [(k, v)]
  | p :: rest, k, v => if p.1 = k then (k, v) :: rest else p :: dictSet rest k v

/-- Lookup in the mapping model (`d.get(k)` / `df[k]`). -/
def dictGet {α : Type} : List (String × α) → String → Option α
  | [], _ => none
  | p :: rest, k => if p.1 = k then some p.2 else dictGet rest k

/-! ## Numeric coercion of observation values

`pd.to_numeric(df["value"], errors="coerce")` turns each value string into a
float, and any unparsable string (in particular the FRED missing-value
sentinel ".") into NaN.  We model the relevant input domain: an optional
sign followed by a decimal literal; everything else fails coercion. -/

/-- Digits of a character list read as a natural number. -/
def natOfDigits (cs : List Char) : Nat :=
  cs.foldl (fun a c => a * 10 + (c.toNat - 48)) 0

/-- Parse an unsigned decimal literal (`"123"`, `"123.45"`, `"123."`, `".5"`);
the bare sentinel `"."` and any string with a non-digit character fail. -/
def parseUnsigned (cs : List Char) : Option ℚ :=
  let intPart := cs.takeWhile (fun c => c ≠ '.')
  let rest := cs.dropWhile (fun c => c ≠ '.')
  match rest with
  | [] =>
    if intPart ≠ [] ∧ intPart.all Char.isDigit then some (natOfDigits intPart) else none
  | _ :: frac =>
    if (intPart ≠ [] ∨ frac ≠ []) ∧ intPart.all Char.isDigit ∧ frac.all Char.isDigit then
      some ((natOfDigits intPart : ℚ) + (natOfDigits frac : ℚ) / ((10 : ℚ) ^ frac.length))
    else none

/-- Numeric coercion of one observation value string: `none` models NaN. -/
def parseValue (s : String) : Option ℚ :=
  match s.toList with
  | '-' :: rest => (parseUnsigned rest).map (fun q => -q)
  | '+' :: rest => parseUnsigned rest
  | cs => parseUnsigned cs

/-! ## Observation decoding (`FRED_API.get_series_obs`, cleaning block) -/

/-- One raw record of the `"observations"` array: a date string and a value
string (the date is assumed well-formed, as the claims do; `pd.to_datetime`
never drops rows). -/
structure ObsRecord where
  date : String
  value : String
deriving DecidableEq

/-- One decoded row of the resulting table: date index plus numeric value. -/
structure Row where
  date : String
  value : ℚ
deriving DecidableEq

/-- The cleaning block of `get_series_obs`: coerce every value to numeric
(`errors="coerce"`), then `dropna(subset=["value"])` removes exactly the rows
whose value failed coercion. -/
def decodeObservations (records : List ObsRecord) : List Row :=
  records.filterMap (fun r => (parseValue r.value).map (fun q => ⟨r.date, q⟩))

/-! ## Logging model (`Logs` mixin calls: `self.info` / `self.error` / `self.warning`) -/

inductive LogLevel where
  | info
  | warning
  | error
deriving DecidableEq

structure LogEntry where
  level : LogLevel
  msg : String
deriving DecidableEq

/-! ## `FRED_API.__init__` (client construction) -/

/-- The `ValueError` raised by `FRED_API.__init__`; the spec names this
condition `ConfigurationError`. -/
inductive ConfigError where
  | missingKey (msg : String)
deriving DecidableEq

/-- The state a freshly constructed client holds: the resolved credential and
`self._session = None` (no session, hence no network access, at construction). -/
structure ClientInit where
  apiKey : String
  sessionSlotEmpty : Bool
deriving DecidableEq

/-- Python's `a or b` on optional strings: `None` and `""` are falsy. -/
def pyOrOpt (a b : Option String) : Option String :=
  match a with
  | some s => if s = "" then b else some s
  | none => b

/-- `FRED_API.__init__`: `self.API_KEY = api_key or os.getenv("FRED_KEY")`;
`if not self.API_KEY: raise ValueError(...)`; else `self._session = None`.
`envFredKey` is the value of the `FRED_KEY` environment variable. -/
def initClient (apiKeyArg : Option String) (envFredKey : Option String) :
    Except ConfigError ClientInit :=
  match pyOrOpt apiKeyArg envFredKey with
  | none => .error (.missingKey "Must provide api_key or set as an environment variable.")
  | some s =>
    if s = "" then .error (.missingKey "Must provide api_key or set as an environment variable.")
    else .ok ⟨s, true⟩

/-! ## `FRED_API._request_data` (request path) -/

def BASE_LINK : String := "https://api.stlouisfed.org/fred/"

/-- `params.update({"api_key": self.API_KEY, "file_type": "json"})`. -/
def injectAuth (params : List (String × String)) (apiKey : String) :
    List (String × String) :=
  dictSet (dictSet params "api_key" apiKey) "file_type" "json"

/-- Python's `repr` of one string-valued dict entry. -/
def renderParam (p : String × String) : String :=
  "'" ++ p.1 ++ "': '" ++ p.2 ++ "'"

/-- Python's `repr` of a `dict[str, str]` as interpolated by the f-string. -/
def renderParams (d : List (String × String)) : String :=
  "\x7b" ++ String.intercalate ", " (d.map renderParam) ++ "\x7d"

/-- The message of the entry log of `_request_data`:
`self.info(f"Request sent to:{full_url},parameters used: {params}")`, emitted
AFTER `params.update(...)` injected the credential. -/
def requestEntryLogMsg (endpoint : String) (params : List (String × String))
    (apiKey : String) : String :=
  "Request sent to:" ++ BASE_LINK ++ endpoint ++ ",parameters used: "
    ++ renderParams (injectAuth params apiKey)

/-- The Python exceptions the `try` block of `_request_data` can raise. -/
inductive PyExc where
  | clientResponseError (msg : String)
  | clientError (msg : String)
  | otherExc (msg : String)
deriving DecidableEq

/-- Abstract outcome of the aiohttp round trip
(`session.get` / `raise_for_status` / `response.json()`), parametrised by the
type of a successfully decoded JSON body. -/
inductive ReqOutcome (β : Type) where
  | success (body : β)
  | httpError (msg : String)
  | transportError (msg : String)
  | otherError (msg : String)
deriving DecidableEq

/-- The body of the `try` block: a non-2xx status raises
`aiohttp.ClientResponseError`, a transport failure raises
`aiohttp.ClientError`, a malformed body (or anything else) raises some other
exception caught by `except Exception`. -/
def performRequest {β : Type} (outcome : ReqOutcome β) : Except PyExc β :=
  match outcome with
  | .success b => .ok b
  | .httpError m => .error (.clientResponseError m)
  | .transportError m => .error (.clientError m)
  | .otherError m => .error (.otherExc m)

/-- `FRED_API._request_data`: logs entry, runs the request, catches every
exception class, returns the decoded body on success and `None` on any
failure.  The match on `performRequest` is exhaustive over `PyExc`: no
exception escapes.  Returns (result, log written). -/
def requestData {β : Type} (apiKey endpoint : String)
    (params : List (String × String)) (outcome : ReqOutcome β) :
    Option β × List LogEntry :=
  let entry : LogEntry := ⟨.info, requestEntryLogMsg endpoint params apiKey⟩
  match performRequest outcome with
  | .ok b => (some b, [entry, ⟨.info, "Successful request made."⟩])
  | .error (.clientResponseError m) =>
    (none, [entry, ⟨.error, "Http error occurred: " ++ m⟩,
            ⟨.info, "Request process complete."⟩])
  | .error (.clientError m) =>
    (none, [entry, ⟨.error, "Following error occurred while making request: " ++ m⟩,
            ⟨.info, "Request process complete."⟩])
  | .error (.otherExc m) =>
    (none, [entry, ⟨.error, "Error occurred while fetching data.Error:" ++ m⟩,
            ⟨.info, "Request process complete."⟩])

/-! ## `FRED_API.get_series_obs` -/

/-- The decoded JSON body as `get_series_obs` inspects it:
`some records` models a truthy mapping with an `"observations"` key holding
the record list; `none` models a mapping without that key (or a falsy empty
mapping), i.e. the `data and "observations" in data` test fails. -/
def FredJson : Type := Option (List ObsRecord)

/-- `FRED_API.get_series_obs`: merges `series_id` into the params, delegates
to `_request_data`, and either decodes the observations into a table or logs
a warning and returns `None`.  Returns (result, log written). -/
def getSeriesObs (apiKey seriesId : String) (params : List (String × String))
    (outcome : ReqOutcome FredJson) : Option (List Row) × List LogEntry :=
  let params1 := dictSet params "series_id" seriesId
  let res := requestData apiKey "series/observations" params1 outcome
  match res.1 with
  | some (some records) =>
    (some (decodeObservations records),
     res.2 ++ [⟨.info, "Successfully processed observation data for series_id:" ++ seriesId⟩])
  | some none =>
    (none, res.2 ++ [⟨.warning, "No observation found for series:" ++ seriesId⟩])
  | none =>
    (none, res.2 ++ [⟨.warning, "No observation found for series:" ++ seriesId⟩])

/-- The failure condition of `get_series_obs`: the request failed
(`_request_data` returned `None`) or the decoded mapping lacks an
`"observations"` key. -/
def fetchFailedOrNoObs : ReqOutcome FredJson → Bool
  | .success (some _) => false
  | _ => true

/-! ## Session lifecycle (`FRED_API.session` property and `__aexit__`) -/

/-- An `aiohttp.ClientSession` object: identity (for object comparison with
`is`) plus its `closed` flag. -/
structure SessionObj where
  id : Nat
  closed : Bool
deriving DecidableEq

/-- The session-related state of one client: `self._session` plus an
allocator counter giving fresh identities to newly constructed sessions. -/
structure ClientState where
  sess : Option SessionObj
  nextId : Nat
deriving DecidableEq

/-- The `session` property: reuse `self._session` if it exists and is open,
otherwise construct and store a fresh `aiohttp.ClientSession()`. -/
def acquireSession (st : ClientState) : SessionObj × ClientState :=
  match st.sess with
  | some ss =>
    if ss.closed then
      (⟨st.nextId, false⟩, ⟨some ⟨st.nextId, false⟩, st.nextId + 1⟩)
    else (ss, st)
  | none => (⟨st.nextId, false⟩, ⟨some ⟨st.nextId, false⟩, st.nextId + 1⟩)

/-- `__aexit__`: `if self._session and not self._session.closed: await
self._session.close()`.  Total: safe whatever the state. -/
def releaseSession (st : ClientState) : ClientState :=
  match st.sess with
  | some ss => if ss.closed then st else ⟨some ⟨ss.id, true⟩, st.nextId⟩
  | none => st

/-- Allocator soundness: the stored session's identity is below the counter
(holds for the initial state `⟨none, 0⟩` and is preserved by both
operations). -/
def wfClient (st : ClientState) : Bool :=
  match st.sess with
  | some ss => ss.id < st.nextId
  | none => true

/-! ## pandas DataFrame model and `Fred_Data_Cleaner` operations -/

/-- A DataFrame: named columns in order, each a list of optional rationals
(`none` models NaN).  The row index is left implicit: transformations of the
cleaner never reorder or drop rows. -/
structure DFrame where
  cols : List (String × List (Option ℚ))
deriving DecidableEq

/-- `name in df.columns` / column lookup `df[name]`. -/
def getCol (df : DFrame) (name : String) : Option (List (Option ℚ)) :=
  dictGet df.cols name

/-- Column assignment `df[name] = col`: overwrite an existing column in
place, otherwise append the new column at the end. -/
def setCol (df : DFrame) (name : String) (col : List (Option ℚ)) : DFrame :=
  ⟨dictSet df.cols name col⟩

/-- Number of rows (length of the first column; all columns of a well-formed
frame have this length). -/
def numRows (df : DFrame) : Nat :=
  match df.cols with
  | [] => 0
  | p :: _ => p.2.length

/-- Rectangularity: every column has the common row count. -/
def wfFrame (df : DFrame) : Prop :=
  ∀ p ∈ df.cols, p.2.length = numRows df

/-- `df.isnull().sum().sum() > 0`: some NaN somewhere. -/
def hasMissing (df : DFrame) : Bool :=
  df.cols.any (fun p => p.2.any (fun v => v.isNone))

/-- Forward fill of one column, carrying the last non-missing value seen. -/
def ffillGo (last : Option ℚ) : List (Option ℚ) → List (Option ℚ)
  | [] => []
  | none :: rest => last :: ffillGo last rest
  | some v :: rest => some v :: ffillGo (some v) rest

/-- `Series.ffill()` on one column (nothing precedes the first row). -/
def ffillCol (c : List (Option ℚ)) : List (Option ℚ) :=
  ffillGo none c

/-- `Fred_Data_Cleaner.handle_missing_values`: if any NaN exists, apply
`df.ffill(inplace=True)` (per-column forward fill); else leave the frame
untouched. -/
def handleMissingValues (df : DFrame) : DFrame :=
  if hasMissing df then ⟨df.cols.map (fun p => (p.1, ffillCol p.2))⟩ else df

/-- `Fred_Data_Cleaner.replace_columns`: drop the columns named
`realtime_start` / `realtime_end` when present. -/
def replaceColumns (df : DFrame) : DFrame :=
  ⟨df.cols.filter (fun p => !(p.1 == "realtime_start" || p.1 == "realtime_end"))⟩

/-- `Series.pct_change()` after the first entry: each output is
`current / previous - 1`, NaN when either neighbour is NaN. -/
def pctChangeGo (prev : Option ℚ) : List (Option ℚ) → List (Option ℚ)
  | [] => []
  | v :: rest =>
    (match prev, v with
     | some a, some b => some (b / a - 1)
     | _, _ => none) :: pctChangeGo v rest

/-- `Series.pct_change()`: the first entry has no predecessor and is NaN. -/
def pctChangeList (c : List (Option ℚ)) : List (Option ℚ) :=
  pctChangeGo none c

/-- Python's `new_column_name if new_column_name else f'{column_name}_growth_rate'`
(`None` and `""` are falsy). -/
def growthColName (columnName : String) (newColumnName : Option String) : String :=
  match newColumnName with
  | some s => if s = "" then columnName ++ "_growth_rate" else s
  | none => columnName ++ "_growth_rate"

/-- `Fred_Data_Cleaner.calculate_pct_change`: if the source column is absent,
log an error and leave the frame unchanged; otherwise assign
`df[column_name].pct_change() * 100` to the output column. -/
def calculatePctChange (df : DFrame) (columnName : String)
    (newColumnName : Option String) : DFrame :=
  match getCol df columnName with
  | none => df
  | some col =>
    setCol df (growthColName columnName newColumnName)
      ((pctChangeList col).map (fun v => v.map (fun q => q * 100)))

/-! ## Heap model for in-place mutation

Python objects live on a heap; a caller-held DataFrame or dict is a cell
that callee code may or may not mutate.  Cells are indexed by `Nat` refs. -/

/-- One chainable cleaner operation (the three mutating methods). -/
inductive CleanOp where
  | handleMissing
  | replaceCols
  | pctChange (columnName : String) (newColumnName : Option String)
deriving DecidableEq

def applyOp (op : CleanOp) (df : DFrame) : DFrame :=
  match op with
  | .handleMissing => handleMissingValues df
  | .replaceCols => replaceColumns df
  | .pctChange c n => calculatePctChange df c n

/-- `Fred_Data_Cleaner.__init__(df)` over a heap of DataFrame cells:
`self.df = df.copy()` allocates a fresh cell holding a copy of the caller's
frame and the cleaner keeps a reference to that fresh cell only. -/
def cleanerNew (heap : List DFrame) (callerRef : Nat) : Nat × List DFrame :=
  (heap.length, heap ++ [heap.getD callerRef ⟨[]⟩])

/-- Running a chain of cleaner methods: each mutates the cleaner's own cell
in place (`inplace=True` / column assignment on `self.df`). -/
def runOps (selfRef : Nat) (ops : List CleanOp) (heap : List DFrame) : List DFrame :=
  ops.foldl (fun h op => h.set selfRef (applyOp op (h.getD selfRef ⟨[]⟩))) heap

/-- The effect of `get_series_obs(series_id, params)` on the CALLER's params
dict cell: `params["series_id"] = series_id` mutates it in place, and
`_request_data`'s `params.update({"api_key": ..., "file_type": "json"})`
mutates the very same object. -/
def seriesObsParamsEffect (heap : List (List (String × String))) (paramsRef : Nat)
    (seriesId apiKey : String) : List (List (String × String)) :=
  heap.set paramsRef (injectAuth (dictSet (heap.getD paramsRef []) "series_id" seriesId) apiKey)

/-! ## Helper lemmas -/

theorem dictGet_dictSet_self {α : Type} (d : List (String × α)) (k : String) (v : α) :
    dictGet (dictSet d k v) k = some v := by
  induction d with
  | nil => simp [dictSet, dictGet]
  | cons p rest ih =>
    by_cases h : p.1 = k
    · simp [dictSet, dictGet, h]
    · simp [dictSet, dictGet, h, ih]

theorem dictGet_dictSet_ne {α : Type} (d : List (String × α)) (k : String) (v : α)
    (k' : String) (hne : k' ≠ k) : dictGet (dictSet d k v) k' = dictGet d k' := by
  induction d with
  | nil =>
    simp [dictSet, dictGet]
    exact fun h => hne h.symm
  | cons p rest ih =>
    by_cases h : p.1 = k
    · have hp : p.1 ≠ k' := by rw [h]; exact Ne.symm hne
      simp [dictSet, dictGet, h, Ne.symm hne, hp]
    · by_cases h' : p.1 = k'
      · simp [dictSet, dictGet, h, h', hne]
      · simp [dictSet, dictGet, h, h', ih]

theorem decodeObservations_length (records : List ObsRecord) :
    (decodeObservations records).length
      = records.length - (records.filter (fun r => (parseValue r.value).isNone)).length := by
  induction records with
  | nil => rfl
  | cons r rest ih =>
    have hle : (rest.filter (fun r => (parseValue r.value).isNone)).length ≤ rest.length :=
      List.length_filter_le _ _
    cases h : parseValue r.value with
    | none =>
      simp [decodeObservations, List.filterMap_cons, h] at ih ⊢
      omega
    | some q =>
      simp [decodeObservations, List.filterMap_cons, h] at ih ⊢
      omega

theorem ffillGo_idem (c : List (Option ℚ)) : ∀ p, ffillGo p (ffillGo p c) = ffillGo p c := by
  induction c with
  | nil => intro p; rfl
  | cons v rest ih =>
    intro p
    cases v with
    | none =>
      cases p with
      | none => simp [ffillGo, ih]
      | some a => simp [ffillGo, ih]
    | some b => simp [ffillGo, ih]

theorem ffillCols_idem (l : List (String × List (Option ℚ))) :
    (l.map (fun p => (p.1, ffillCol p.2))).map (fun p => (p.1, ffillCol p.2))
      = l.map (fun p => (p.1, ffillCol p.2)) := by
  induction l with
  | nil => rfl
  | cons p rest ih => simp [ffillCol, ffillGo_idem, ih]

theorem handleMissingValues_idem (df : DFrame) :
    handleMissingValues (handleMissingValues df) = handleMissingValues df := by
  by_cases h : hasMissing df = true
  · have h1 : handleMissingValues df = ⟨df.cols.map (fun p => (p.1, ffillCol p.2))⟩ := by
      simp [handleMissingValues, h]
    rw [h1]
    by_cases h2 : hasMissing ⟨df.cols.map (fun p => (p.1, ffillCol p.2))⟩ = true
    · simp [handleMissingValues, h2]
      exact fun a b _ => ffillGo_idem b none
    · simp [handleMissingValues, h2]
  · have h1 : handleMissingValues df = df := by simp [handleMissingValues, h]
    rw [h1, h1]

theorem getD_set_ne {α : Type} (l : List α) (i j : Nat) (x d : α) (hij : i ≠ j) :
    (l.set i x).getD j d = l.getD j d := by
  induction l generalizing i j with
  | nil => rfl
  | cons a rest ih =>
    cases i with
    | zero =>
      cases j with
      | zero => exact absurd rfl hij
      | succ j' => simp [List.getD_cons_succ]
    | succ i' =>
      cases j with
      | zero => simp [List.getD_cons_zero]
      | succ j' =>
        have : i' ≠ j' := fun hh => hij (by rw [hh])
        simpa [List.getD_cons_succ] using ih i' j' this

theorem getD_set_self {α : Type} (l : List α) (i : Nat) (x d : α) (hi : i < l.length) :
    (l.set i x).getD i d = x := by
  induction l generalizing i with
  | nil => simp at hi
  | cons a rest ih =>
    cases i with
    | zero => simp [List.getD_cons_zero]
    | succ i' =>
      have : i' < rest.length := by simpa using hi
      simpa [List.getD_cons_succ] using ih i' this

theorem getD_append_left {α : Type} (l l' : List α) (i : Nat) (d : α)
    (hi : i < l.length) : (l ++ l').getD i d = l.getD i d := by
  induction l generalizing i with
  | nil => simp at hi
  | cons a rest ih =>
    cases i with
    | zero => simp [List.getD_cons_zero]
    | succ i' =>
      have : i' < rest.length := by simpa using hi
      simpa [List.getD_cons_succ] using ih i' this

theorem runOps_preserves_other (selfRef r : Nat) (hne : r ≠ selfRef)
    (ops : List CleanOp) :
    ∀ heap : List DFrame, (runOps selfRef ops heap).getD r ⟨[]⟩ = heap.getD r ⟨[]⟩ := by
  induction ops with
  | nil => intro heap; rfl
  | cons op rest ih =>
    intro heap
    have hstep : runOps selfRef (op :: rest) heap
        = runOps selfRef rest (heap.set selfRef (applyOp op (heap.getD selfRef ⟨[]⟩))) := rfl
    rw [hstep, ih, getD_set_ne _ _ _ _ _ (fun hh => hne hh.symm)]

theorem pctChangeGo_length (c : List (Option ℚ)) :
    ∀ p, (pctChangeGo p c).length = c.length := by
  induction c with
  | nil => intro p; rfl
  | cons v rest ih => intro p; simp [pctChangeGo, ih]

theorem pctChangeGo_getElem (i : Nat) :
    ∀ (l : List (Option ℚ)) (p : Option ℚ) (a b : ℚ),
      l[i]? = some (some a) → l[i + 1]? = some (some b) →
      (pctChangeGo p l)[i + 1]? = some (some (b / a - 1)) := by
  induction i with
  | zero =>
    intro l p a b ha hb
    cases l with
    | nil => simp at ha
    | cons v rest =>
      cases rest with
      | nil => simp at hb
      | cons w rest' =>
        simp at ha hb
        subst ha
        subst hb
        simp [pctChangeGo]
  | succ i' ih =>
    intro l p a b ha hb
    cases l with
    | nil => simp at ha
    | cons v rest =>
      simp at ha hb
      simpa [pctChangeGo] using ih rest v a b ha hb

/-! ## Claim theorems -/

/-- Claim C4: for every well-formed response whose observations array holds
`k` records of which `m` fail numeric coercion, `get_series_obs` produces a
table (never null) with exactly `k − m` rows: the rows whose value failed
coercion are excluded. -/
theorem C4_decoder_row_count (apiKey seriesId : String)
    (params : List (String × String)) (records : List ObsRecord) :
    (getSeriesObs apiKey seriesId params (.success (some records))).1
        = some (decodeObservations records)
      ∧ (decodeObservations records).length
        = records.length - (records.filter (fun r => (parseValue r.value).isNone)).length :=
  ⟨rfl, decodeObservations_length records⟩

/-- Claim C3 (violated by the code): `_request_data` logs the parameter dict
AFTER injecting the credential, so the entry log message contains the
credential value.  Evaluated at the failing input: endpoint
`series/observations`, params `{'series_id': 'GDPC1'}`, api key `SECRET`. -/
theorem C3_entry_log_contains_credential :
    ∃ p q, requestEntryLogMsg "series/observations" [("series_id", "GDPC1")] "SECRET"
      = p ++ "SECRET" ++ q :=
  ⟨"Request sent to:https://api.stlouisfed.org/fred/series/observations,parameters used: \x7b'series_id': 'GDPC1', 'api_key': '",
   "', 'file_type': 'json'\x7d", by rfl⟩

/-- Claim C2, counterexample: when the underlying HTTP call fails,
`get_series_obs` returns `None`, not an empty ObservationTable as claimed. -/
theorem C2_counterexample :
    (getSeriesObs "TEST_KEY" "TEST_SERIES" [] (.transportError "connection refused")).1 = none
      ∧ (getSeriesObs "TEST_KEY" "TEST_SERIES" [] (.transportError "connection refused")).1
          ≠ some [] :=
  ⟨rfl, by simp [getSeriesObs, requestData, performRequest]⟩

/-- Claim C2 as amended: when the underlying request fails or the decoded
mapping lacks an `"observations"` key, `get_series_obs` returns `None`
(rather than an empty ObservationTable) and logs a warning whose message
contains the series identifier. -/
theorem C2_fetch_failure_amended (apiKey seriesId : String)
    (params : List (String × String)) (outcome : ReqOutcome FredJson)
    (h : fetchFailedOrNoObs outcome = true) :
    (getSeriesObs apiKey seriesId params outcome).1 = none
      ∧ ∃ e ∈ (getSeriesObs apiKey seriesId params outcome).2,
          e.level = .warning ∧ ∃ p, e.msg = p ++ seriesId := by
  have hwarn : ∀ logs : List LogEntry,
      ∃ e ∈ logs ++ [⟨.warning, "No observation found for series:" ++ seriesId⟩],
        e.level = LogLevel.warning ∧ ∃ p, e.msg = p ++ seriesId := by
    intro logs
    refine ⟨⟨.warning, "No observation found for series:" ++ seriesId⟩, ?_, rfl,
      "No observation found for series:", rfl⟩
    simp
  cases outcome with
  | success body =>
    cases body with
    | none => exact ⟨rfl, hwarn _⟩
    | some records => simp [fetchFailedOrNoObs] at h
  | httpError m => exact ⟨rfl, hwarn _⟩
  | transportError m => exact ⟨rfl, hwarn _⟩
  | otherError m => exact ⟨rfl, hwarn _⟩

/-- Witness for C2's amended theorem at a concrete failing call. -/
theorem C2_witness :
    fetchFailedOrNoObs (.httpError "404 Not Found" : ReqOutcome FredJson) = true
      ∧ ((getSeriesObs "TEST_KEY" "GDPC1" [] (.httpError "404 Not Found")).1 = none
         ∧ ∃ e ∈ (getSeriesObs "TEST_KEY" "GDPC1" [] (.httpError "404 Not Found")).2,
             e.level = .warning ∧ ∃ p, e.msg = p ++ "GDPC1") :=
  ⟨rfl, C2_fetch_failure_amended "TEST_KEY" "GDPC1" [] (.httpError "404 Not Found") rfl⟩

/-- Claim C5: `_request_data` never lets an exception escape (its match on
the caught exception is exhaustive): the result is `some body` exactly on
success, and on a non-2xx status, transport failure or malformed body it
returns `None` and an error-level diagnostic appears in the log. -/
theorem C5_request_path_total {β : Type} (apiKey endpoint : String)
    (params : List (String × String)) (outcome : ReqOutcome β) :
    (∀ b : β, (requestData apiKey endpoint params outcome).1 = some b ↔ outcome = .success b)
      ∧ ((∀ b : β, outcome ≠ .success b) →
          (requestData apiKey endpoint params outcome).1 = none
            ∧ ∃ e ∈ (requestData apiKey endpoint params outcome).2, e.level = .error) := by
  cases outcome with
  | success b =>
    refine ⟨?_, ?_⟩
    · intro b'
      simp [requestData, performRequest]
    · intro h; exact absurd rfl (h b)
  | httpError m =>
    refine ⟨by intro b'; simp [requestData, performRequest], fun _ => ⟨rfl, ?_⟩⟩
    exact ⟨⟨.error, "Http error occurred: " ++ m⟩, by simp [requestData, performRequest], rfl⟩
  | transportError m =>
    refine ⟨by intro b'; simp [requestData, performRequest], fun _ => ⟨rfl, ?_⟩⟩
    exact ⟨⟨.error, "Following error occurred while making request: " ++ m⟩,
      by simp [requestData, performRequest], rfl⟩
  | otherError m =>
    refine ⟨by intro b'; simp [requestData, performRequest], fun _ => ⟨rfl, ?_⟩⟩
    exact ⟨⟨.error, "Error occurred while fetching data.Error:" ++ m⟩,
      by simp [requestData, performRequest], rfl⟩

/-- Witness for C5 at a concrete transport failure. -/
theorem C5_witness :
    (requestData "TEST_KEY" "series/observations" []
        (.transportError "Mock connection error" : ReqOutcome FredJson)).1 = none
      ∧ ∃ e ∈ (requestData "TEST_KEY" "series/observations" []
          (.transportError "Mock connection error" : ReqOutcome FredJson)).2,
          e.level = .error :=
  (C5_request_path_total "TEST_KEY" "series/observations" []
    (.transportError "Mock connection error" : ReqOutcome FredJson)).2
    (fun b h => by cases h)

/-- Claim C6: construction raises the configuration error (the source's
`ValueError`) exactly when neither the argument nor the `FRED_KEY`
environment variable yields a non-empty credential; on success no session
exists yet (`self._session = None`), so no network access occurs during
construction. -/
theorem C6_construction (a e : Option String) :
    (((a = none ∨ a = some "") ∧ (e = none ∨ e = some "")) →
        initClient a e
          = .error (.missingKey "Must provide api_key or set as an environment variable."))
      ∧ ((∃ s, s ≠ "" ∧ (a = some s ∨ e = some s)) →
          ∃ c, initClient a e = .ok c ∧ c.sessionSlotEmpty = true) := by
  constructor
  · rintro ⟨ha, he⟩
    rcases ha with ha | ha <;> rcases he with he | he <;>
      simp [initClient, pyOrOpt, ha, he]
  · rintro ⟨s, hs, hcase⟩
    rcases hcase with hcase | hcase
    · exact ⟨⟨s, true⟩, by simp [initClient, pyOrOpt, hcase, hs], rfl⟩
    · cases a with
      | none => exact ⟨⟨s, true⟩, by simp [initClient, pyOrOpt, hcase, hs], rfl⟩
      | some t =>
        by_cases ht : t = ""
        · exact ⟨⟨s, true⟩, by simp [initClient, pyOrOpt, hcase, hs, ht], rfl⟩
        · exact ⟨⟨t, true⟩, by simp [initClient, pyOrOpt, ht], rfl⟩

/-- Witness for C6: no argument and no environment variable errors out;
a non-empty argument succeeds with no session created. -/
theorem C6_witness :
    initClient none none
        = .error (.missingKey "Must provide api_key or set as an environment variable.")
      ∧ ∃ c, initClient (some "TEST_KEY") none = .ok c ∧ c.sessionSlotEmpty = true :=
  ⟨(C6_construction none none).1 ⟨Or.inl rfl, Or.inl rfl⟩,
   (C6_construction (some "TEST_KEY") none).2 ⟨"TEST_KEY", by decide, Or.inl rfl⟩⟩

/-- Claim C7: two consecutive `session` reads with no intervening release
return the same session object (and leave the state unchanged); after
`__aexit__` closes the session, the next read returns a different, open
session object; `__aexit__` is idempotent and safe when no session exists. -/
theorem C7_session_lifecycle (st : ClientState) (h : wfClient st = true) :
    ((acquireSession (acquireSession st).2).1 = (acquireSession st).1
        ∧ (acquireSession (acquireSession st).2).2 = (acquireSession st).2)
      ∧ ((acquireSession (releaseSession (acquireSession st).2)).1.id
            ≠ (acquireSession st).1.id
          ∧ (acquireSession (releaseSession (acquireSession st).2)).1.closed = false)
      ∧ releaseSession (releaseSession st) = releaseSession st
      ∧ releaseSession ⟨none, st.nextId⟩ = ⟨none, st.nextId⟩ := by
  obtain ⟨sess, n⟩ := st
  cases sess with
  | none =>
    refine ⟨⟨rfl, rfl⟩, ⟨?_, rfl⟩, rfl, rfl⟩
    simp [acquireSession, releaseSession]
  | some ss =>
    obtain ⟨sid, sc⟩ := ss
    cases sc with
    | true =>
      refine ⟨⟨rfl, rfl⟩, ⟨?_, rfl⟩, rfl, rfl⟩
      simp [acquireSession, releaseSession]
    | false =>
      simp only [wfClient, decide_eq_true_eq] at h
      refine ⟨⟨rfl, rfl⟩, ⟨?_, rfl⟩, rfl, rfl⟩
      simp [acquireSession, releaseSession]
      omega

/-- Witness for C7 on the freshly constructed client state
(`self._session = None`, no session allocated yet). -/
theorem C7_witness :
    wfClient ⟨none, 0⟩ = true
      ∧ (((acquireSession (acquireSession ⟨none, 0⟩).2).1 = (acquireSession ⟨none, 0⟩).1
            ∧ (acquireSession (acquireSession ⟨none, 0⟩).2).2 = (acquireSession ⟨none, 0⟩).2)
          ∧ ((acquireSession (releaseSession (acquireSession ⟨none, 0⟩).2)).1.id
                ≠ (acquireSession ⟨none, 0⟩).1.id
              ∧ (acquireSession (releaseSession (acquireSession ⟨none, 0⟩).2)).1.closed = false)
          ∧ releaseSession (releaseSession ⟨none, 0⟩) = releaseSession ⟨none, 0⟩
          ∧ releaseSession ⟨none, (⟨none, 0⟩ : ClientState).nextId⟩
              = ⟨none, (⟨none, 0⟩ : ClientState).nextId⟩) :=
  ⟨rfl, C7_session_lifecycle ⟨none, 0⟩ rfl⟩

/-- Claim C8: `handle_missing_values` (forward fill) is idempotent, and is a
no-op when the table has no missing values. -/
theorem C8_fill_missing_idempotent (df : DFrame) :
    handleMissingValues (handleMissingValues df) = handleMissingValues df
      ∧ (hasMissing df = false → handleMissingValues df = df) :=
  ⟨handleMissingValues_idem df, fun h => by simp [handleMissingValues, h]⟩

/-- Witness for C8 on a concrete table without missing values. -/
theorem C8_witness :
    hasMissing (⟨[("value", [some 1, some 2])]⟩ : DFrame) = false
      ∧ handleMissingValues ⟨[("value", [some 1, some 2])]⟩
          = (⟨[("value", [some 1, some 2])]⟩ : DFrame) :=
  ⟨rfl, (C8_fill_missing_idempotent ⟨[("value", [some 1, some 2])]⟩).2 rfl⟩

/-- Claim C9: the cleaner's constructor copies the caller's DataFrame into a
fresh heap cell, so any chain of cleaner operations leaves the caller's
original DataFrame cell unchanged. -/
theorem C9_cleaner_copies_input (heap : List DFrame) (callerRef : Nat)
    (ops : List CleanOp) (h : callerRef < heap.length) :
    (runOps (cleanerNew heap callerRef).1 ops
        (cleanerNew heap callerRef).2).getD callerRef ⟨[]⟩
      = heap.getD callerRef ⟨[]⟩ := by
  have h1 : (cleanerNew heap callerRef).1 = heap.length := rfl
  have hne : callerRef ≠ heap.length := Nat.ne_of_lt h
  rw [h1, runOps_preserves_other heap.length callerRef hne ops]
  exact getD_append_left heap _ callerRef ⟨[]⟩ h

/-- Witness for C9: a full chain (fill, prune, growth rate) over a concrete
one-cell heap leaves the caller's frame unchanged. -/
theorem C9_witness :
    0 < ([(⟨[("value", [none, some 2])]⟩ : DFrame)] : List DFrame).length
      ∧ (runOps (cleanerNew [(⟨[("value", [none, some 2])]⟩ : DFrame)] 0).1
            [.handleMissing, .replaceCols, .pctChange "value" none]
            (cleanerNew [(⟨[("value", [none, some 2])]⟩ : DFrame)] 0).2).getD 0 ⟨[]⟩
          = ([(⟨[("value", [none, some 2])]⟩ : DFrame)] : List DFrame).getD 0 ⟨[]⟩ :=
  ⟨by decide,
   C9_cleaner_copies_input [(⟨[("value", [none, some 2])]⟩ : DFrame)] 0
     [.handleMissing, .replaceCols, .pctChange "value" none] (by decide)⟩

/-- Claim C10: `get_series_obs` mutates the caller-supplied params dict in
place: afterwards the caller's cell additionally holds the `series_id` entry
plus the injected `api_key` and `file_type` entries, all other entries kept. -/
theorem C10_params_mutated_in_place (heap : List (List (String × String)))
    (paramsRef : Nat) (seriesId apiKey : String) (h : paramsRef < heap.length) :
    dictGet ((seriesObsParamsEffect heap paramsRef seriesId apiKey).getD paramsRef [])
        "series_id" = some seriesId
      ∧ dictGet ((seriesObsParamsEffect heap paramsRef seriesId apiKey).getD paramsRef [])
          "api_key" = some apiKey
      ∧ dictGet ((seriesObsParamsEffect heap paramsRef seriesId apiKey).getD paramsRef [])
          "file_type" = some "json"
      ∧ ∀ k, k ≠ "series_id" → k ≠ "api_key" → k ≠ "file_type" →
          dictGet ((seriesObsParamsEffect heap paramsRef seriesId apiKey).getD paramsRef [])
              k
            = dictGet (heap.getD paramsRef []) k := by
  have hd : (seriesObsParamsEffect heap paramsRef seriesId apiKey).getD paramsRef []
      = injectAuth (dictSet (heap.getD paramsRef []) "series_id" seriesId) apiKey :=
    getD_set_self _ _ _ _ h
  refine ⟨?_, ?_, ?_, ?_⟩
  · rw [hd, injectAuth, dictGet_dictSet_ne _ _ _ _ (by decide),
      dictGet_dictSet_ne _ _ _ _ (by decide), dictGet_dictSet_self]
  · rw [hd, injectAuth, dictGet_dictSet_ne _ _ _ _ (by decide), dictGet_dictSet_self]
  · rw [hd, injectAuth, dictGet_dictSet_self]
  · intro k hk1 hk2 hk3
    rw [hd, injectAuth, dictGet_dictSet_ne _ _ _ _ hk3, dictGet_dictSet_ne _ _ _ _ hk2,
      dictGet_dictSet_ne _ _ _ _ hk1]

/-- Witness for C10 on a concrete one-cell heap holding the caller's dict
`{'observation_start': '2020-01-01'}`. -/
theorem C10_witness :
    dictGet ((seriesObsParamsEffect [[("observation_start", "2020-01-01")]] 0
        "GDPC1" "TEST_KEY").getD 0 []) "series_id" = some "GDPC1"
      ∧ dictGet ((seriesObsParamsEffect [[("observation_start", "2020-01-01")]] 0
          "GDPC1" "TEST_KEY").getD 0 []) "api_key" = some "TEST_KEY"
      ∧ dictGet ((seriesObsParamsEffect [[("observation_start", "2020-01-01")]] 0
          "GDPC1" "TEST_KEY").getD 0 []) "file_type" = some "json"
      ∧ dictGet ((seriesObsParamsEffect [[("observation_start", "2020-01-01")]] 0
          "GDPC1" "TEST_KEY").getD 0 []) "observation_start"
        = dictGet (([[("observation_start", "2020-01-01")]] :
            List (List (String × String))).getD 0 []) "observation_start" := by
  have h := C10_params_mutated_in_place [[("observation_start", "2020-01-01")]] 0
    "GDPC1" "TEST_KEY" (by decide)
  exact ⟨h.1, h.2.1, h.2.2.1,
    h.2.2.2 "observation_start" (by decide) (by decide) (by decide)⟩

/-- Claim C1, counterexample: `calculate_pct_change` on a 2-row table yields
2 rows of output, not `2 − 1`: `Series.pct_change` leaves the first row in
place with a NaN, it does not drop it. -/
theorem C1_counterexample :
    numRows (⟨[("value", [some 100, some 110])]⟩ : DFrame) = 2
      ∧ numRows (calculatePctChange ⟨[("value", [some 100, some 110])]⟩ "value" none) = 2
      ∧ (2 : Nat) ≠ 2 - 1 :=
  ⟨rfl, rfl, by decide⟩

/-- Claim C1 as amended: for every table whose source column exists with `n`
entries, `calculate_pct_change` keeps every row (every other column is
unchanged and the new column also has `n` entries, so no row is dropped);
the new column's first entry is NaN (undefined, not dropped), and entry
`i + 1` equals `(v[i+1] − v[i]) / v[i] × 100` whenever both neighbours are
present and the previous value is nonzero. -/
theorem C1_growth_rate_amended (df : DFrame) (columnName : String)
    (newColumnName : Option String) (vals : List (Option ℚ))
    (hcol : getCol df columnName = some vals) :
    ∃ out, getCol (calculatePctChange df columnName newColumnName)
          (growthColName columnName newColumnName) = some out
      ∧ out.length = vals.length
      ∧ (vals ≠ [] → out.head? = some none)
      ∧ (∀ name, name ≠ growthColName columnName newColumnName →
          getCol (calculatePctChange df columnName newColumnName) name = getCol df name)
      ∧ ∀ i a b, vals[i]? = some (some a) → vals[i + 1]? = some (some b) → a ≠ 0 →
          out[i + 1]? = some (some ((b - a) / a * 100)) := by
  have hstep : calculatePctChange df columnName newColumnName
      = setCol df (growthColName columnName newColumnName)
          ((pctChangeList vals).map (fun v => v.map (fun q => q * 100))) := by
    simp only [calculatePctChange, hcol]
  refine ⟨(pctChangeList vals).map (fun v => v.map (fun q => q * 100)), ?_, ?_, ?_, ?_, ?_⟩
  · rw [hstep, setCol, getCol]
    exact dictGet_dictSet_self _ _ _
  · simp [pctChangeList, pctChangeGo_length]
  · intro hne
    cases vals with
    | nil => exact absurd rfl hne
    | cons v rest => simp [pctChangeList, pctChangeGo]
  · intro name hname
    rw [hstep, setCol, getCol, getCol]
    exact dictGet_dictSet_ne _ _ _ _ hname
  · intro i a b ha hb hA
    have h1 : (pctChangeList vals)[i + 1]? = some (some (b / a - 1)) :=
      pctChangeGo_getElem i vals none a b ha hb
    rw [List.getElem?_map, h1]
    have hexp : (b / a - 1) * 100 = (b - a) / a * 100 := by
      field_simp
    simp [hexp]

/-- Witness for C1's amended theorem on a concrete 2-row table. -/
theorem C1_witness :
    getCol (⟨[("value", [some 100, some 110])]⟩ : DFrame) "value"
        = some [some 100, some 110]
      ∧ ∃ out, getCol (calculatePctChange ⟨[("value", [some 100, some 110])]⟩ "value" none)
            (growthColName "value" none) = some out
          ∧ out.length = ([some 100, some 110] : List (Option ℚ)).length
          ∧ (([some 100, some 110] : List (Option ℚ)) ≠ [] → out.head? = some none)
          ∧ (∀ name, name ≠ growthColName "value" none →
              getCol (calculatePctChange ⟨[("value", [some 100, some 110])]⟩ "value" none)
                  name
                = getCol ⟨[("value", [some 100, some 110])]⟩ name)
          ∧ ∀ i a b, ([some 100, some 110] : List (Option ℚ))[i]? = some (some a) →
              ([some 100, some 110] : List (Option ℚ))[i + 1]? = some (some b) → a ≠ 0 →
              out[i + 1]? = some (some ((b - a) / a * 100)) :=
  ⟨rfl, C1_growth_rate_amended ⟨[("value", [some 100, some 110])]⟩ "value" none
    [some 100, some 110] rfl⟩

end FredCore
